import Mathlib

/-!
# Verification of the `tower-lsp` client socket (`src/service/client/socket.rs`)

A shallow embedding of the loopback transport between a language server and
its in-process client.  The embedding models:

* the shared server lifecycle `State` (an external collaborator, read-only
  from the socket's perspective),
* the `Pending` registry (an external collaborator; the socket only inserts
  responses into it, modelled as the list of responses inserted so far, in
  insertion order),
* the `futures::channel::mpsc::Receiver` request queue (an external
  collaborator, modelled by its buffered items, its closed flag and its
  terminated flag),
* the `ClientSocket`, and the `RequestStream` / `ResponseSink` halves
  produced by `ClientSocket::split`, with their `Stream`, `FusedStream` and
  `Sink` implementations translated line by line from the source.

Stateful Rust methods taking `Pin<&mut Self>` become pure functions
returning a `result × new-state` pair.
-/

set_option autoImplicit false

/-- An outbound JSON-RPC request.  Its schema is external to this core;
only its identity as a movable value matters, so it wraps an opaque tag. -/
structure Request where
  payload : Nat
  deriving DecidableEq, Repr

/-- An inbound JSON-RPC response.  As for `Request`, the content is opaque. -/
structure Response where
  payload : Nat
  deriving DecidableEq, Repr

/-- Modelled from the spec: the shared server lifecycle state is a small
closed enum (the source file only imports `State` from `super`; the spec
gives the phases as initializing, running, exited). -/
inductive State where
  | Initializing
  | Running
  | Exited
  deriving DecidableEq, Repr

/-- The unit error value `ExitedError(())` returned by sink operations
after the server has exited. -/
inductive ExitedError where
  | mk
  deriving DecidableEq, Repr

/-- `std::task::Poll`: either a ready value or a suspension. -/
inductive Poll (α : Type) where
  | Ready : α → Poll α
  | Pending
  deriving DecidableEq, Repr

/-- `Result<(), ExitedError>` as returned by the sink operations. -/
inductive SinkResult where
  | ok
  | error : ExitedError → SinkResult
  deriving DecidableEq, Repr

/-- Modelled from the spec: the consuming end of the single-producer
single-consumer request queue (`futures::channel::mpsc::Receiver`).
`buffer` holds the queued items in FIFO order, `closed` records that the
producer has been dropped, and `terminated` is the exhaustion flag that the
receiver sets once it has observed the closed queue run dry. -/
structure Receiver (α : Type) where
  buffer : List α
  closed : Bool
  terminated : Bool
  deriving DecidableEq, Repr

/-- Modelled from the spec: `Receiver::poll_next` (via `poll_next_unpin`).
A terminated receiver keeps reporting end-of-sequence; otherwise it yields
the head of the buffer, reports end-of-sequence (and sets the exhaustion
flag) when the buffer is empty and the producer is gone, and suspends when
the buffer is empty but the producer is still alive. -/
def Receiver.pollNext {α : Type} (rx : Receiver α) : Poll (Option α) × Receiver α :=
  if rx.terminated then
    (Poll.Ready none, rx)
  else
    match rx.buffer with
    | item :: rest => (Poll.Ready (some item), { rx with buffer := rest })
    | [] =>
      if rx.closed then
        (Poll.Ready none, { rx with terminated := true })
      else
        (Poll.Pending, rx)

/-- Modelled from the spec: `FusedStream::is_terminated` on the receiver is
its exhaustion flag. -/
def Receiver.isTerminated {α : Type} (rx : Receiver α) : Bool :=
  rx.terminated

/-- Modelled from the spec: the receiver's `size_hint` is the queue's
known-remaining-count estimate — at least the buffered items, with no
claimed upper bound. -/
def Receiver.sizeHint {α : Type} (rx : Receiver α) : Nat × Option Nat :=
  (rx.buffer.length, none)

/-- The unsplit loopback endpoint:

```rust
pub struct ClientSocket {
    pub(super) rx: Receiver<Request>,
    pub(super) pending: Arc<Pending>,
    pub(super) state: Arc<ServerState>,
}
```

The `Arc<Pending>` registry is modelled by the list of responses inserted
into it so far (in insertion order); the `Arc<ServerState>` read-handle is
modelled by the lifecycle phase it currently reads. -/
structure ClientSocket where
  rx : Receiver Request
  pending : List Response
  state : State
  deriving DecidableEq, Repr

/-- The stream half produced by `ClientSocket::split`:

```rust
pub struct RequestStream {
    rx: Receiver<Request>,
    state: Arc<ServerState>,
}
``` -/
structure RequestStream where
  rx : Receiver Request
  state : State
  deriving DecidableEq, Repr

/-- The sink half produced by `ClientSocket::split`:

```rust
pub struct ResponseSink {
    pending: Arc<Pending>,
    state: Arc<ServerState>,
}
``` -/
structure ResponseSink where
  pending : List Response
  state : State
  deriving DecidableEq, Repr

/-- `ClientSocket::split`: moves the queue consumer into the stream half and
the registry handle into the sink half; both halves receive the same shared
lifecycle state (`state.clone()` clones the `Arc`, not the state). -/
def ClientSocket.split (s : ClientSocket) : RequestStream × ResponseSink :=
  ({ rx := s.rx, state := s.state }, { pending := s.pending, state := s.state })

/-- `<ClientSocket as Stream>::poll_next`:

```rust
if self.state.get() == State::Exited || self.rx.is_terminated() {
    Poll::Ready(None)
} else {
    self.rx.poll_next_unpin(cx)
}
``` -/
def ClientSocket.poll_next (s : ClientSocket) : Poll (Option Request) × ClientSocket :=
  if s.state = State.Exited ∨ s.rx.isTerminated = true then
    (Poll.Ready none, s)
  else
    let r := s.rx.pollNext
    (r.1, { s with rx := r.2 })

/-- `<ClientSocket as Stream>::size_hint`: forwarded from the queue. -/
def ClientSocket.size_hint (s : ClientSocket) : Nat × Option Nat :=
  s.rx.sizeHint

/-- `<ClientSocket as FusedStream>::is_terminated`: forwarded from the
queue's exhaustion flag, the lifecycle state is not consulted. -/
def ClientSocket.is_terminated (s : ClientSocket) : Bool :=
  s.rx.isTerminated

/-- `<ClientSocket as Sink<Response>>::poll_ready`:

```rust
if self.state.get() == State::Exited || self.rx.is_terminated() {
    Poll::Ready(Err(ExitedError(())))
} else {
    Poll::Ready(Ok(()))
}
``` -/
def ClientSocket.poll_ready (s : ClientSocket) : Poll SinkResult × ClientSocket :=
  if s.state = State.Exited ∨ s.rx.isTerminated = true then
    (Poll.Ready (SinkResult.error ExitedError.mk), s)
  else
    (Poll.Ready SinkResult.ok, s)

/-- `<ClientSocket as Sink<Response>>::start_send`:

```rust
self.pending.insert(item);
Ok(())
``` -/
def ClientSocket.start_send (s : ClientSocket) (item : Response) :
    SinkResult × ClientSocket :=
  (SinkResult.ok, { s with pending := s.pending ++ [item] })

/-- `<ClientSocket as Sink<Response>>::poll_flush`: `Poll::Ready(Ok(()))`. -/
def ClientSocket.poll_flush (s : ClientSocket) : Poll SinkResult × ClientSocket :=
  (Poll.Ready SinkResult.ok, s)

/-- `<ClientSocket as Sink<Response>>::poll_close`: `Poll::Ready(Ok(()))`. -/
def ClientSocket.poll_close (s : ClientSocket) : Poll SinkResult × ClientSocket :=
  (Poll.Ready SinkResult.ok, s)

/-- `<RequestStream as Stream>::poll_next` — identical text to the unsplit
socket's implementation. -/
def RequestStream.poll_next (s : RequestStream) : Poll (Option Request) × RequestStream :=
  if s.state = State.Exited ∨ s.rx.isTerminated = true then
    (Poll.Ready none, s)
  else
    let r := s.rx.pollNext
    (r.1, { s with rx := r.2 })

/-- `<RequestStream as Stream>::size_hint`: forwarded from the queue. -/
def RequestStream.size_hint (s : RequestStream) : Nat × Option Nat :=
  s.rx.sizeHint

/-- `<RequestStream as FusedStream>::is_terminated`: forwarded from the
queue's exhaustion flag. -/
def RequestStream.is_terminated (s : RequestStream) : Bool :=
  s.rx.isTerminated

/-- `<ResponseSink as Sink<Response>>::poll_ready`:

```rust
if self.state.get() == State::Exited {
    Poll::Ready(Err(ExitedError(())))
} else {
    Poll::Ready(Ok(()))
}
``` -/
def ResponseSink.poll_ready (k : ResponseSink) : Poll SinkResult × ResponseSink :=
  if k.state = State.Exited then
    (Poll.Ready (SinkResult.error ExitedError.mk), k)
  else
    (Poll.Ready SinkResult.ok, k)

/-- `<ResponseSink as Sink<Response>>::start_send`:

```rust
self.pending.insert(item);
Ok(())
``` -/
def ResponseSink.start_send (k : ResponseSink) (item : Response) :
    SinkResult × ResponseSink :=
  (SinkResult.ok, { k with pending := k.pending ++ [item] })

/-- `<ResponseSink as Sink<Response>>::poll_flush`: `Poll::Ready(Ok(()))`. -/
def ResponseSink.poll_flush (k : ResponseSink) : Poll SinkResult × ResponseSink :=
  (Poll.Ready SinkResult.ok, k)

/-- `<ResponseSink as Sink<Response>>::poll_close`: `Poll::Ready(Ok(()))`. -/
def ResponseSink.poll_close (k : ResponseSink) : Poll SinkResult × ResponseSink :=
  (Poll.Ready SinkResult.ok, k)

/-!
## Environment model

The lifecycle state and the request queue are written by external
collaborators.  To state the temporal claims ("once Exited, every
*subsequent* call ..."), a socket evolves through an interleaving of its
own operations and environment events.  Environment events are modelled
from the spec: the producer may enqueue a request only while it is still
alive (the queue is not closed), the producer may be dropped (closing the
queue), and the server runtime may move the lifecycle state, whose
transitions are monotonic — once `Exited`, it never reverts.
-/

/-- A single step in the life of a `ClientSocket`: an environment event
(producer enqueue, producer drop, lifecycle transition) or one of the
socket's own operations, whose output is not needed to describe the
evolution of the socket's state. -/
inductive CsAct where
  | enqueue : Request → CsAct
  | close
  | setState : State → CsAct
  | pollNext
  | pollReady
  | startSend : Response → CsAct
  | pollFlush
  | pollClose
  deriving DecidableEq, Repr

/-- Modelled from the spec: applying one step to a `ClientSocket`.
An enqueue after the producer has been dropped is impossible and leaves
the socket unchanged; a lifecycle write after `Exited` is impossible
(monotonic transitions) and likewise leaves it unchanged. -/
def ClientSocket.applyAct (s : ClientSocket) : CsAct → ClientSocket
  | CsAct.enqueue r =>
    if s.rx.closed then s else { s with rx := { s.rx with buffer := s.rx.buffer ++ [r] } }
  | CsAct.close => { s with rx := { s.rx with closed := true } }
  | CsAct.setState p => if s.state = State.Exited then s else { s with state := p }
  | CsAct.pollNext => (s.poll_next).2
  | CsAct.pollReady => (s.poll_ready).2
  | CsAct.startSend r => (s.start_send r).2
  | CsAct.pollFlush => (s.poll_flush).2
  | CsAct.pollClose => (s.poll_close).2

/-- Run a `ClientSocket` through a sequence of steps, oldest first. -/
def ClientSocket.run (s : ClientSocket) : List CsAct → ClientSocket
  | [] => s
  | a :: rest => (s.applyAct a).run rest

/-- A single step in the life of a `RequestStream`: the same environment
events, plus the stream's own poll. -/
inductive RsAct where
  | enqueue : Request → RsAct
  | close
  | setState : State → RsAct
  | pollNext
  deriving DecidableEq, Repr

/-- Modelled from the spec: applying one step to a `RequestStream`, with
the same environment constraints as for the unsplit socket. -/
def RequestStream.applyAct (s : RequestStream) : RsAct → RequestStream
  | RsAct.enqueue r =>
    if s.rx.closed then s else { s with rx := { s.rx with buffer := s.rx.buffer ++ [r] } }
  | RsAct.close => { s with rx := { s.rx with closed := true } }
  | RsAct.setState p => if s.state = State.Exited then s else { s with state := p }
  | RsAct.pollNext => (s.poll_next).2

/-- Run a `RequestStream` through a sequence of steps, oldest first. -/
def RequestStream.run (s : RequestStream) : List RsAct → RequestStream
  | [] => s
  | a :: rest => (s.applyAct a).run rest

/-- A single step in the life of a `ResponseSink`: a lifecycle transition
or one of the sink's own operations (this half holds no queue reference,
so queue events do not touch it). -/
inductive SkAct where
  | setState : State → SkAct
  | pollReady
  | startSend : Response → SkAct
  | pollFlush
  | pollClose
  deriving DecidableEq, Repr

/-- Modelled from the spec: applying one step to a `ResponseSink`, with
monotonic lifecycle transitions. -/
def ResponseSink.applyAct (k : ResponseSink) : SkAct → ResponseSink
  | SkAct.setState p => if k.state = State.Exited then k else { k with state := p }
  | SkAct.pollReady => (k.poll_ready).2
  | SkAct.startSend r => (k.start_send r).2
  | SkAct.pollFlush => (k.poll_flush).2
  | SkAct.pollClose => (k.poll_close).2

/-- Run a `ResponseSink` through a sequence of steps, oldest first. -/
def ResponseSink.run (k : ResponseSink) : List SkAct → ResponseSink
  | [] => k
  | a :: rest => (k.applyAct a).run rest

/-- The sink protocol of the `futures::Sink` trait: a well-behaved caller
checks `poll_ready` and calls `start_send` only after it returned `Ok`.
(`poll_ready` on these sinks is always `Poll::Ready`, so the `Pending`
branch is unreachable and modelled as not sending.) -/
def ClientSocket.protocolSend (s : ClientSocket) (item : Response) :
    SinkResult × ClientSocket :=
  match s.poll_ready with
  | (Poll.Ready SinkResult.ok, s1) => s1.start_send item
  | (Poll.Ready (SinkResult.error e), s1) => (SinkResult.error e, s1)
  | (Poll.Pending, s1) => (SinkResult.error ExitedError.mk, s1)

/-- The sink protocol for the split sink half, as for the unsplit socket. -/
def ResponseSink.protocolSend (k : ResponseSink) (item : Response) :
    SinkResult × ResponseSink :=
  match k.poll_ready with
  | (Poll.Ready SinkResult.ok, k1) => k1.start_send item
  | (Poll.Ready (SinkResult.error e), k1) => (SinkResult.error e, k1)
  | (Poll.Pending, k1) => (SinkResult.error ExitedError.mk, k1)

/-- A stream handle is logically finished once the lifecycle state reads
`Exited` or the queue exhaustion flag is set: the disjunction tested by
`poll_next` and `poll_ready` on the unsplit socket. -/
def ClientSocket.done (s : ClientSocket) : Prop :=
  s.state = State.Exited ∨ s.rx.terminated = true

/-- The finished condition for the split stream half. -/
def RequestStream.done (s : RequestStream) : Prop :=
  s.state = State.Exited ∨ s.rx.terminated = true

/-!
## Helper lemmas

`Exited` is absorbing along every interleaving of socket operations and
environment events, and so is the finished condition of the stream role.
-/

theorem ClientSocket.cs_state_applyAct (s : ClientSocket) (a : CsAct)
    (h : s.state = State.Exited) : (s.applyAct a).state = State.Exited := by
  cases a with
  | enqueue r =>
    by_cases hc : s.rx.closed = true <;> simp [ClientSocket.applyAct, hc, h]
  | close => simp [ClientSocket.applyAct, h]
  | setState p => simp [ClientSocket.applyAct, h]
  | pollNext => simp [ClientSocket.applyAct, ClientSocket.poll_next, h]
  | pollReady => simp [ClientSocket.applyAct, ClientSocket.poll_ready, h]
  | startSend r => simp [ClientSocket.applyAct, ClientSocket.start_send, h]
  | pollFlush => simp [ClientSocket.applyAct, ClientSocket.poll_flush, h]
  | pollClose => simp [ClientSocket.applyAct, ClientSocket.poll_close, h]

theorem ClientSocket.cs_terminated_applyAct (s : ClientSocket) (a : CsAct)
    (h : s.rx.terminated = true) : (s.applyAct a).rx.terminated = true := by
  cases a with
  | enqueue r =>
    by_cases hc : s.rx.closed = true <;> simp [ClientSocket.applyAct, hc, h]
  | close => simp [ClientSocket.applyAct, h]
  | setState p =>
    by_cases hc : s.state = State.Exited <;> simp [ClientSocket.applyAct, hc, h]
  | pollNext =>
    simp [ClientSocket.applyAct, ClientSocket.poll_next, Receiver.isTerminated, h]
  | pollReady =>
    simp [ClientSocket.applyAct, ClientSocket.poll_ready, Receiver.isTerminated, h]
  | startSend r => simp [ClientSocket.applyAct, ClientSocket.start_send, h]
  | pollFlush => simp [ClientSocket.applyAct, ClientSocket.poll_flush, h]
  | pollClose => simp [ClientSocket.applyAct, ClientSocket.poll_close, h]

theorem ClientSocket.cs_state_run (s : ClientSocket) (acts : List CsAct)
    (h : s.state = State.Exited) : (s.run acts).state = State.Exited := by
  induction acts generalizing s with
  | nil => simpa [ClientSocket.run] using h
  | cons a rest ih => simpa [ClientSocket.run] using ih _ (s.cs_state_applyAct a h)

theorem ClientSocket.cs_done_applyAct (s : ClientSocket) (a : CsAct) (h : s.done) :
    (s.applyAct a).done := by
  rcases h with h | h
  · exact Or.inl (s.cs_state_applyAct a h)
  · exact Or.inr (s.cs_terminated_applyAct a h)

theorem ClientSocket.cs_done_run (s : ClientSocket) (acts : List CsAct) (h : s.done) :
    (s.run acts).done := by
  induction acts generalizing s with
  | nil => simpa [ClientSocket.run] using h
  | cons a rest ih => simpa [ClientSocket.run] using ih _ (s.cs_done_applyAct a h)

theorem ClientSocket.cs_done_poll_next (s : ClientSocket) (h : s.done) :
    s.poll_next = (Poll.Ready none, s) := by
  have h2 : s.state = State.Exited ∨ s.rx.terminated = true := h
  unfold ClientSocket.poll_next
  rw [if_pos (by simpa [Receiver.isTerminated] using h2)]

theorem ClientSocket.cs_poll_next_done (s : ClientSocket)
    (h : (s.poll_next).1 = Poll.Ready none) : ((s.poll_next).2).done := by
  by_cases hc : s.state = State.Exited ∨ s.rx.terminated = true
  · rw [ClientSocket.cs_done_poll_next s hc]
    exact hc
  · push_neg at hc
    have ht2 : s.rx.terminated = false := by simpa using hc.2
    simp only [ClientSocket.poll_next, Receiver.isTerminated] at h ⊢
    rw [if_neg (by simp [hc.1, ht2])] at h ⊢
    simp only [Receiver.pollNext, ht2] at h ⊢
    rcases hb : s.rx.buffer with _ | ⟨r, rest⟩ <;> simp only [hb] at h ⊢
    · by_cases hcl : s.rx.closed = true
      · simp [hcl, ClientSocket.done]
      · have hcl2 : s.rx.closed = false := by simpa using hcl
        simp [hcl2] at h
    · simp at h

theorem RequestStream.rs_state_applyAct (s : RequestStream) (a : RsAct)
    (h : s.state = State.Exited) : (s.applyAct a).state = State.Exited := by
  cases a with
  | enqueue r =>
    by_cases hc : s.rx.closed = true <;> simp [RequestStream.applyAct, hc, h]
  | close => simp [RequestStream.applyAct, h]
  | setState p => simp [RequestStream.applyAct, h]
  | pollNext => simp [RequestStream.applyAct, RequestStream.poll_next, h]

theorem RequestStream.rs_terminated_applyAct (s : RequestStream) (a : RsAct)
    (h : s.rx.terminated = true) : (s.applyAct a).rx.terminated = true := by
  cases a with
  | enqueue r =>
    by_cases hc : s.rx.closed = true <;> simp [RequestStream.applyAct, hc, h]
  | close => simp [RequestStream.applyAct, h]
  | setState p =>
    by_cases hc : s.state = State.Exited <;> simp [RequestStream.applyAct, hc, h]
  | pollNext =>
    simp [RequestStream.applyAct, RequestStream.poll_next, Receiver.isTerminated, h]

theorem RequestStream.rs_state_run (s : RequestStream) (acts : List RsAct)
    (h : s.state = State.Exited) : (s.run acts).state = State.Exited := by
  induction acts generalizing s with
  | nil => simpa [RequestStream.run] using h
  | cons a rest ih => simpa [RequestStream.run] using ih _ (s.rs_state_applyAct a h)

theorem RequestStream.rs_done_applyAct (s : RequestStream) (a : RsAct) (h : s.done) :
    (s.applyAct a).done := by
  rcases h with h | h
  · exact Or.inl (s.rs_state_applyAct a h)
  · exact Or.inr (s.rs_terminated_applyAct a h)

theorem RequestStream.rs_done_run (s : RequestStream) (acts : List RsAct) (h : s.done) :
    (s.run acts).done := by
  induction acts generalizing s with
  | nil => simpa [RequestStream.run] using h
  | cons a rest ih => simpa [RequestStream.run] using ih _ (s.rs_done_applyAct a h)

theorem RequestStream.rs_done_poll_next (s : RequestStream) (h : s.done) :
    s.poll_next = (Poll.Ready none, s) := by
  have h2 : s.state = State.Exited ∨ s.rx.terminated = true := h
  unfold RequestStream.poll_next
  rw [if_pos (by simpa [Receiver.isTerminated] using h2)]

theorem RequestStream.rs_poll_next_done (s : RequestStream)
    (h : (s.poll_next).1 = Poll.Ready none) : ((s.poll_next).2).done := by
  by_cases hc : s.state = State.Exited ∨ s.rx.terminated = true
  · rw [RequestStream.rs_done_poll_next s hc]
    exact hc
  · push_neg at hc
    have ht2 : s.rx.terminated = false := by simpa using hc.2
    simp only [RequestStream.poll_next, Receiver.isTerminated] at h ⊢
    rw [if_neg (by simp [hc.1, ht2])] at h ⊢
    simp only [Receiver.pollNext, ht2] at h ⊢
    rcases hb : s.rx.buffer with _ | ⟨r, rest⟩ <;> simp only [hb] at h ⊢
    · by_cases hcl : s.rx.closed = true
      · simp [hcl, RequestStream.done]
      · have hcl2 : s.rx.closed = false := by simpa using hcl
        simp [hcl2] at h
    · simp at h

theorem ResponseSink.sk_state_applyAct (k : ResponseSink) (a : SkAct)
    (h : k.state = State.Exited) : (k.applyAct a).state = State.Exited := by
  cases a with
  | setState p => simp [ResponseSink.applyAct, h]
  | pollReady => simp [ResponseSink.applyAct, ResponseSink.poll_ready, h]
  | startSend r => simp [ResponseSink.applyAct, ResponseSink.start_send, h]
  | pollFlush => simp [ResponseSink.applyAct, ResponseSink.poll_flush, h]
  | pollClose => simp [ResponseSink.applyAct, ResponseSink.poll_close, h]

theorem ResponseSink.sk_state_run (k : ResponseSink) (acts : List SkAct)
    (h : k.state = State.Exited) : (k.run acts).state = State.Exited := by
  induction acts generalizing k with
  | nil => simpa [ResponseSink.run] using h
  | cons a rest ih => simpa [ResponseSink.run] using ih _ (k.sk_state_applyAct a h)

theorem ClientSocket.cs_poll_ready_exited (s : ClientSocket) (h : s.state = State.Exited) :
    s.poll_ready = (Poll.Ready (SinkResult.error ExitedError.mk), s) := by
  simp [ClientSocket.poll_ready, h]

theorem ResponseSink.sk_poll_ready_exited (k : ResponseSink) (h : k.state = State.Exited) :
    k.poll_ready = (Poll.Ready (SinkResult.error ExitedError.mk), k) := by
  simp [ResponseSink.poll_ready, h]

theorem ClientSocket.cs_protocolSend_exited (s : ClientSocket) (item : Response)
    (h : s.state = State.Exited) :
    s.protocolSend item = (SinkResult.error ExitedError.mk, s) := by
  simp [ClientSocket.protocolSend, s.cs_poll_ready_exited h]

theorem ResponseSink.sk_protocolSend_exited (k : ResponseSink) (item : Response)
    (h : k.state = State.Exited) :
    k.protocolSend item = (SinkResult.error ExitedError.mk, k) := by
  simp [ResponseSink.protocolSend, k.sk_poll_ready_exited h]

/-!
## Concrete instances

Small concrete sockets used to instantiate the claims.
-/

/-- A socket whose lifecycle reads `Exited` while two requests are still
buffered and the queue is not exhausted. -/
def exSockExited : ClientSocket :=
  { rx := { buffer := [⟨1⟩, ⟨2⟩], closed := false, terminated := false },
    pending := [], state := State.Exited }

/-- A socket in the `Running` phase with one buffered request. -/
def exSockRunning : ClientSocket :=
  { rx := { buffer := [⟨5⟩], closed := false, terminated := false },
    pending := [⟨0⟩], state := State.Running }

/-- A running stream half with one buffered request. -/
def exStreamRunning : RequestStream :=
  { rx := { buffer := [⟨4⟩], closed := false, terminated := false },
    state := State.Running }

/-- A running stream half whose producer is gone and whose buffer is empty,
so its next poll observes exhaustion. -/
def exStreamClosed : RequestStream :=
  { rx := { buffer := [], closed := true, terminated := false },
    state := State.Running }

/-- A sink half observed after the server has exited. -/
def exSinkExited : ResponseSink :=
  { pending := [⟨2⟩], state := State.Exited }

/-- A sink half in the `Running` phase. -/
def exSinkRunning : ResponseSink :=
  { pending := [], state := State.Running }

/-!
## Claims
-/

/-- C1, counterexample.  The claim states that once the lifecycle state
reads `Exited`, no further `Response` value is inserted into the pending
registry by any sink operation.  On the code this fails: with the state
already `Exited`, the sink operation `start_send` on the unsplit socket
still returns `Ok` and inserts its argument into the registry (the `Exited`
check lives only in `poll_ready`). -/
theorem c1_counterexample :
    exSockExited.state = State.Exited ∧
    exSockExited.pending = [] ∧
    (exSockExited.start_send ⟨7⟩).1 = SinkResult.ok ∧
    (exSockExited.start_send ⟨7⟩).2.pending = [⟨7⟩] := by
  decide

/-- C1, amended.  Once the lifecycle state reads `Exited`, after any
further interleaving of socket operations and environment events, every
`poll_ready` call on any sink-capable handle (the unsplit `ClientSocket` or
the split `ResponseSink`) returns the `Exited` error, and a
protocol-respecting send (a `start_send` gated on a successful
`poll_ready`) inserts no further `Response` into the pending registry;
a bare `start_send`, however, still inserts unconditionally. -/
theorem c1_sink_rejects_post_exit
    (s : ClientSocket) (k : ResponseSink)
    (hs : s.state = State.Exited) (hk : k.state = State.Exited)
    (sacts : List CsAct) (kacts : List SkAct) (item : Response) :
    ((s.run sacts).poll_ready).1 = Poll.Ready (SinkResult.error ExitedError.mk) ∧
    ((s.run sacts).protocolSend item).2.pending = (s.run sacts).pending ∧
    ((k.run kacts).poll_ready).1 = Poll.Ready (SinkResult.error ExitedError.mk) ∧
    ((k.run kacts).protocolSend item).2.pending = (k.run kacts).pending := by
  have hs2 := s.cs_state_run sacts hs
  have hk2 := k.sk_state_run kacts hk
  refine ⟨?_, ?_, ?_, ?_⟩
  · rw [(s.run sacts).cs_poll_ready_exited hs2]
  · rw [(s.run sacts).cs_protocolSend_exited item hs2]
  · rw [(k.run kacts).sk_poll_ready_exited hk2]
  · rw [(k.run kacts).sk_protocolSend_exited item hk2]

/-- C1, witness: the amended claim at a concrete exited socket and sink,
after a concrete interleaving of operations and environment events. -/
theorem c1_witness :
    ((exSockExited.run
        [CsAct.pollReady, CsAct.enqueue ⟨3⟩, CsAct.setState State.Running,
         CsAct.pollNext]).poll_ready).1
      = Poll.Ready (SinkResult.error ExitedError.mk) ∧
    ((exSockExited.run
        [CsAct.pollReady, CsAct.enqueue ⟨3⟩, CsAct.setState State.Running,
         CsAct.pollNext]).protocolSend ⟨9⟩).2.pending
      = (exSockExited.run
          [CsAct.pollReady, CsAct.enqueue ⟨3⟩, CsAct.setState State.Running,
           CsAct.pollNext]).pending ∧
    ((exSinkExited.run [SkAct.pollFlush, SkAct.setState State.Running]).poll_ready).1
      = Poll.Ready (SinkResult.error ExitedError.mk) ∧
    ((exSinkExited.run [SkAct.pollFlush, SkAct.setState State.Running]).protocolSend
        ⟨9⟩).2.pending
      = (exSinkExited.run [SkAct.pollFlush, SkAct.setState State.Running]).pending :=
  c1_sink_rejects_post_exit exSockExited exSinkExited rfl rfl
    [CsAct.pollReady, CsAct.enqueue ⟨3⟩, CsAct.setState State.Running, CsAct.pollNext]
    [SkAct.pollFlush, SkAct.setState State.Running] ⟨9⟩

/-- C2.  For every poll of the stream role (unsplit `ClientSocket` or split
`RequestStream`): if the lifecycle state reads `Exited` or the underlying
queue is exhausted, `poll_next` returns end-of-sequence (`Ready none`)
without delivering any item and without touching the queue — even if
buffered requests remain queued; otherwise it delegates to the underlying
queue's `poll_next`. -/
theorem c2_stream_termination (s : ClientSocket) (t : RequestStream) :
    ((s.state = State.Exited ∨ s.rx.isTerminated = true) →
      s.poll_next = (Poll.Ready none, s)) ∧
    (¬ (s.state = State.Exited ∨ s.rx.isTerminated = true) →
      s.poll_next = ((s.rx.pollNext).1, { s with rx := (s.rx.pollNext).2 })) ∧
    ((t.state = State.Exited ∨ t.rx.isTerminated = true) →
      t.poll_next = (Poll.Ready none, t)) ∧
    (¬ (t.state = State.Exited ∨ t.rx.isTerminated = true) →
      t.poll_next = ((t.rx.pollNext).1, { t with rx := (t.rx.pollNext).2 })) := by
  refine ⟨fun h => s.cs_done_poll_next h, fun h => ?_, fun h => t.rs_done_poll_next h,
    fun h => ?_⟩
  · unfold ClientSocket.poll_next
    rw [if_neg h]
  · unfold RequestStream.poll_next
    rw [if_neg h]

/-- C2, witness: an exited socket with two buffered requests yields
end-of-sequence, and a running stream half delegates to its queue. -/
theorem c2_witness :
    exSockExited.poll_next = (Poll.Ready none, exSockExited) ∧
    exStreamRunning.poll_next
      = ((exStreamRunning.rx.pollNext).1,
         { exStreamRunning with rx := (exStreamRunning.rx.pollNext).2 }) :=
  ⟨(c2_stream_termination exSockExited exStreamRunning).1 (Or.inl rfl),
   (c2_stream_termination exSockExited exStreamRunning).2.2.2 (by decide)⟩

/-- C3.  The unsplit socket's `poll_ready` returns the `Exited` error
exactly when the lifecycle state reads `Exited` or the request queue is
exhausted; in every other state it immediately returns `Ready Ok`, and it
never changes the socket. -/
theorem c3_socket_poll_ready (s : ClientSocket) :
    ((s.poll_ready).1 = Poll.Ready (SinkResult.error ExitedError.mk) ↔
      (s.state = State.Exited ∨ s.rx.isTerminated = true)) ∧
    (¬ (s.state = State.Exited ∨ s.rx.isTerminated = true) →
      s.poll_ready = (Poll.Ready SinkResult.ok, s)) ∧
    (s.poll_ready).2 = s := by
  by_cases hc : s.state = State.Exited ∨ s.rx.isTerminated = true <;>
    simp [ClientSocket.poll_ready, hc]

/-- C3, witness: the dichotomy at an exited socket and a running one. -/
theorem c3_witness :
    ((exSockExited.poll_ready).1 = Poll.Ready (SinkResult.error ExitedError.mk) ↔
      (exSockExited.state = State.Exited ∨ exSockExited.rx.isTerminated = true)) ∧
    exSockRunning.poll_ready = (Poll.Ready SinkResult.ok, exSockRunning) :=
  ⟨(c3_socket_poll_ready exSockExited).1,
   (c3_socket_poll_ready exSockRunning).2.1 (by decide)⟩

/-- C4.  The split `ResponseSink`'s `poll_ready` depends solely on the
lifecycle state: it returns the `Exited` error exactly when the state reads
`Exited`, returns `Ready Ok` otherwise, and never changes the sink.  (This
half holds no queue reference, so queue exhaustion cannot play any role.) -/
theorem c4_sink_poll_ready (k : ResponseSink) :
    ((k.poll_ready).1 = Poll.Ready (SinkResult.error ExitedError.mk) ↔
      k.state = State.Exited) ∧
    (k.state ≠ State.Exited → k.poll_ready = (Poll.Ready SinkResult.ok, k)) ∧
    (k.poll_ready).2 = k := by
  by_cases hc : k.state = State.Exited <;> simp [ResponseSink.poll_ready, hc]

/-- C4, witness: the dichotomy at an exited sink half and a running one. -/
theorem c4_witness :
    ((exSinkExited.poll_ready).1 = Poll.Ready (SinkResult.error ExitedError.mk) ↔
      exSinkExited.state = State.Exited) ∧
    exSinkRunning.poll_ready = (Poll.Ready SinkResult.ok, exSinkRunning) :=
  ⟨(c4_sink_poll_ready exSinkExited).1,
   (c4_sink_poll_ready exSinkRunning).2.1 (by decide)⟩

/-- C5.  For both the unsplit `ClientSocket` and the split `RequestStream`,
the `is_terminated` report tracks exactly the underlying queue's exhaustion
flag and is unaffected by the lifecycle state; consequently a handle whose
state is `Exited` but whose queue is not exhausted reports not-terminated
while its `poll_next` already yields only completion. -/
theorem c5_is_terminated_tracks_queue (s : ClientSocket) (t : RequestStream)
    (p : State) :
    s.is_terminated = s.rx.terminated ∧
    t.is_terminated = t.rx.terminated ∧
    ({ s with state := p }).is_terminated = s.is_terminated ∧
    ({ t with state := p }).is_terminated = t.is_terminated ∧
    (s.state = State.Exited → s.rx.terminated = false →
      s.is_terminated = false ∧ (s.poll_next).1 = Poll.Ready none) ∧
    (t.state = State.Exited → t.rx.terminated = false →
      t.is_terminated = false ∧ (t.poll_next).1 = Poll.Ready none) := by
  refine ⟨rfl, rfl, rfl, rfl, fun hs ht => ⟨ht, ?_⟩, fun hs ht => ⟨ht, ?_⟩⟩
  · rw [s.cs_done_poll_next (Or.inl hs)]
  · rw [t.rs_done_poll_next (Or.inl hs)]

/-- C5, witness: the exited-but-not-exhausted socket and an analogous
stream half report not-terminated while yielding only completion. -/
theorem c5_witness :
    exSockExited.is_terminated = exSockExited.rx.terminated ∧
    (exSockExited.is_terminated = false ∧
      (exSockExited.poll_next).1 = Poll.Ready none) ∧
    ({ exStreamRunning with state := State.Exited }).is_terminated
      = exStreamRunning.is_terminated :=
  ⟨(c5_is_terminated_tracks_queue exSockExited exStreamRunning State.Running).1,
   (c5_is_terminated_tracks_queue exSockExited exStreamRunning
      State.Running).2.2.2.2.1 rfl rfl,
   (c5_is_terminated_tracks_queue exSockExited exStreamRunning
      State.Exited).2.2.2.1⟩

/-- C6.  While the lifecycle state is not `Exited`, a `start_send` on the
unsplit `ClientSocket` or the split `ResponseSink` returns `Ok` and appends
its `Response` to the pending registry exactly once, synchronously,
whatever the registry already contains (matching an outstanding call is the
registry's concern). -/
theorem c6_start_send_pre_exit (s : ClientSocket) (k : ResponseSink)
    (item : Response) (hs : s.state ≠ State.Exited) (hk : k.state ≠ State.Exited) :
    s.start_send item = (SinkResult.ok, { s with pending := s.pending ++ [item] }) ∧
    k.start_send item = (SinkResult.ok, { k with pending := k.pending ++ [item] }) :=
  ⟨rfl, rfl⟩

/-- C6, witness: a running socket and sink half each accept one response
and hand it to the registry once. -/
theorem c6_witness :
    exSockRunning.start_send ⟨8⟩
      = (SinkResult.ok, { exSockRunning with pending := exSockRunning.pending ++ [⟨8⟩] }) ∧
    exSinkRunning.start_send ⟨8⟩
      = (SinkResult.ok, { exSinkRunning with pending := exSinkRunning.pending ++ [⟨8⟩] }) :=
  c6_start_send_pre_exit exSockRunning exSinkRunning ⟨8⟩ (by decide) (by decide)

/-- C7.  On both sink-capable handles, `poll_flush` and `poll_close`
resolve immediately with `Ready Ok` and leave the handle unchanged, in
every state (the lifecycle state, including `Exited`, the queue and the
registry are arbitrary here). -/
theorem c7_flush_close_noop (s : ClientSocket) (k : ResponseSink) :
    s.poll_flush = (Poll.Ready SinkResult.ok, s) ∧
    s.poll_close = (Poll.Ready SinkResult.ok, s) ∧
    k.poll_flush = (Poll.Ready SinkResult.ok, k) ∧
    k.poll_close = (Poll.Ready SinkResult.ok, k) :=
  ⟨rfl, rfl, rfl, rfl⟩

/-- C7, witness: the no-ops at exited handles. -/
theorem c7_witness :
    exSockExited.poll_flush = (Poll.Ready SinkResult.ok, exSockExited) ∧
    exSockExited.poll_close = (Poll.Ready SinkResult.ok, exSockExited) ∧
    exSinkExited.poll_flush = (Poll.Ready SinkResult.ok, exSinkExited) ∧
    exSinkExited.poll_close = (Poll.Ready SinkResult.ok, exSinkExited) :=
  c7_flush_close_noop exSockExited exSinkExited

/-- C8.  Once a stream handle (unsplit `ClientSocket` or split
`RequestStream`) has reported completion (`poll_next` returned
`Ready none`), every subsequent `poll_next` — after any further
interleaving of its own operations and environment events — again reports
completion; it never yields a further item (and the stream type has no
error channel at all). -/
theorem c8_idempotent_completion (s : ClientSocket) (t : RequestStream)
    (hs : (s.poll_next).1 = Poll.Ready none)
    (ht : (t.poll_next).1 = Poll.Ready none)
    (sacts : List CsAct) (tacts : List RsAct) :
    ((((s.poll_next).2).run sacts).poll_next).1 = Poll.Ready none ∧
    ((((t.poll_next).2).run tacts).poll_next).1 = Poll.Ready none := by
  constructor
  · rw [ClientSocket.cs_done_poll_next _
      (ClientSocket.cs_done_run _ sacts (s.cs_poll_next_done hs))]
  · rw [RequestStream.rs_done_poll_next _
      (RequestStream.rs_done_run _ tacts (t.rs_poll_next_done ht))]

/-- C8, witness: an exited socket and an exhausted stream half keep
reporting completion through a concrete later interleaving. -/
theorem c8_witness :
    ((((exSockExited.poll_next).2).run
        [CsAct.enqueue ⟨9⟩, CsAct.setState State.Running, CsAct.pollNext]).poll_next).1
      = Poll.Ready none ∧
    ((((exStreamClosed.poll_next).2).run
        [RsAct.pollNext, RsAct.enqueue ⟨3⟩]).poll_next).1
      = Poll.Ready none :=
  c8_idempotent_completion exSockExited exStreamClosed (by decide) (by decide)
    [CsAct.enqueue ⟨9⟩, CsAct.setState State.Running, CsAct.pollNext]
    [RsAct.pollNext, RsAct.enqueue ⟨3⟩]

/-- C9 (implicit).  `start_send` on both sink-capable handles never
returns an error: it unconditionally appends its `Response` to the pending
registry and returns `Ok`, whatever the lifecycle state — in particular
with the state forced to `Exited` — so a caller that skips `poll_ready`
still deposits responses after exit; the `Exited` check lives only in
`poll_ready`. -/
theorem c9_start_send_unconditional (s : ClientSocket) (k : ResponseSink)
    (item : Response) (p : State) :
    (s.start_send item).1 = SinkResult.ok ∧
    (s.start_send item).2.pending = s.pending ++ [item] ∧
    (k.start_send item).1 = SinkResult.ok ∧
    (k.start_send item).2.pending = k.pending ++ [item] ∧
    ({ s with state := p }).start_send item
      = (SinkResult.ok, { s with state := p, pending := s.pending ++ [item] }) ∧
    ({ s with state := State.Exited }).start_send item
      = (SinkResult.ok,
         { s with state := State.Exited, pending := s.pending ++ [item] }) ∧
    ({ k with state := State.Exited }).start_send item
      = (SinkResult.ok,
         { k with state := State.Exited, pending := k.pending ++ [item] }) :=
  ⟨rfl, rfl, rfl, rfl, rfl, rfl, rfl⟩

/-- C9, witness: concrete deposits, including on handles forced to
`Exited`. -/
theorem c9_witness :
    (exSockExited.start_send ⟨6⟩).1 = SinkResult.ok ∧
    (exSockExited.start_send ⟨6⟩).2.pending = exSockExited.pending ++ [⟨6⟩] ∧
    (exSinkExited.start_send ⟨6⟩).1 = SinkResult.ok ∧
    (exSinkExited.start_send ⟨6⟩).2.pending = exSinkExited.pending ++ [⟨6⟩] :=
  ⟨(c9_start_send_unconditional exSockExited exSinkExited ⟨6⟩ State.Running).1,
   (c9_start_send_unconditional exSockExited exSinkExited ⟨6⟩ State.Running).2.1,
   (c9_start_send_unconditional exSockExited exSinkExited ⟨6⟩ State.Running).2.2.1,
   (c9_start_send_unconditional exSockExited exSinkExited ⟨6⟩ State.Running).2.2.2.1⟩

/-- C10 (implicit).  `split` is behavior-preserving for the stream
direction: for every socket, the `RequestStream` half gives the same
`poll_next` outcome (same polled value, same resulting queue, same
lifecycle view), the same `size_hint` and the same `is_terminated` report
as the unsplit `ClientSocket` would, and both returned halves hold the
same shared lifecycle state the original socket held. -/
theorem c10_split_preserves_stream (s : ClientSocket) :
    ((s.split).1.poll_next).1 = (s.poll_next).1 ∧
    ((s.split).1.poll_next).2.rx = ((s.poll_next).2).rx ∧
    ((s.split).1.poll_next).2.state = ((s.poll_next).2).state ∧
    (s.split).1.size_hint = s.size_hint ∧
    (s.split).1.is_terminated = s.is_terminated ∧
    (s.split).1.state = s.state ∧
    (s.split).2.state = s.state := by
  by_cases hc : s.state = State.Exited ∨ s.rx.isTerminated = true <;>
    simp [ClientSocket.split, ClientSocket.poll_next, RequestStream.poll_next,
      ClientSocket.size_hint, RequestStream.size_hint, ClientSocket.is_terminated,
      RequestStream.is_terminated, hc]

/-- C10, witness: the equivalence at a concrete running socket. -/
theorem c10_witness :
    ((exSockRunning.split).1.poll_next).1 = (exSockRunning.poll_next).1 ∧
    ((exSockRunning.split).1.poll_next).2.rx = ((exSockRunning.poll_next).2).rx ∧
    ((exSockRunning.split).1.poll_next).2.state
      = ((exSockRunning.poll_next).2).state ∧
    (exSockRunning.split).1.size_hint = exSockRunning.size_hint ∧
    (exSockRunning.split).1.is_terminated = exSockRunning.is_terminated ∧
    (exSockRunning.split).1.state = exSockRunning.state ∧
    (exSockRunning.split).2.state = exSockRunning.state :=
  c10_split_preserves_stream exSockRunning
